import Mathlib

set_option maxRecDepth 100000

/-!
Verification of the zabbix-report-batch utility (main.go).

The development shallowly embeds the parts of the program that the
specification claims talk about:

* the exit-code constants (main.go lines 17-27);
* the login response handling of zabbix_login (lines 99-113), as a pure
  function from the first HTTP response (status code plus cookie list)
  to either a session cookie or an exit code;
* the form-body construction of zabbix_login (lines 62-71), at byte
  level, mirroring url.QueryEscape and url.Values.Encode from the Go
  standard library, together with a decoder mirroring url.ParseQuery;
* the CSV row reader used by extract_active_problems and
  extract_resolved_problems (lines 142-203), mirroring the record
  semantics of encoding/csv.Reader.Read with its default configuration
  (comma separator, no comment character, FieldsPerRecord inferred from
  the first record, LazyQuotes and TrimLeadingSpace off);
* the two renderers themselves.  The Go loop bodies index each record at
  positions 1, 3, 4, 5 and 6 before any length check, so a record with
  fewer than seven fields makes the program panic; the embedding returns
  an Option and models that panic as none.
-/

namespace Zrb

/-! Exit codes, from the constant block at main.go lines 17-27. -/

def ExitCodeSuccess : Nat := 0

def ExitCodeErrorOpeningConfig : Nat := 1

def ExitCodeErrorDeserializingConfig : Nat := 2

def ExitCodeErrorLoginRequestBuilder : Nat := 3

def ExitCodeErrorLoginRequest : Nat := 4

def ExitCodeErrorWrongCredentials : Nat := 5

def ExitCodeErrorExportRequestBuilder : Nat := 6

def ExitCodeErrorMissingCookie : Nat := 7

def ExitCodeErrorExportRequest : Nat := 8

/-! Login response handling, from zabbix_login, main.go lines 99-113.
The function receives the status code and cookie list of the first,
unredirected HTTP response and either returns the session cookie or the
exit code the program terminates with. -/

structure HttpCookie where
  name : String
  value : String
  deriving DecidableEq

def login_outcome (statusCode : Nat) (cookies : List HttpCookie) : Except Nat HttpCookie :=
  if statusCode ≠ 302 then
    Except.error ExitCodeErrorWrongCredentials
  else
    match cookies.find? (fun cookie => cookie.name == "zbx_session") with
    | some cookie => Except.ok cookie
    | none => Except.error ExitCodeErrorMissingCookie

/-! Form-body construction, from zabbix_login, main.go lines 62-71.
Go strings are byte strings, so the model works on lists of byte values.
queryEscape mirrors url.QueryEscape: bytes that are ASCII alphanumeric
or one of minus, underscore, dot, tilde are kept, a space becomes a plus
sign, and every other byte becomes a percent sign followed by two upper
case hex digits. -/

def strBytes (s : String) : List Nat :=
  s.data.map Char.toNat

def isUnreservedByte (b : Nat) : Bool :=
  if (65 ≤ b ∧ b ≤ 90) ∨ (97 ≤ b ∧ b ≤ 122) ∨ (48 ≤ b ∧ b ≤ 57)
      ∨ b = 45 ∨ b = 95 ∨ b = 46 ∨ b = 126 then
    true
  else
    false

def hexUpper (n : Nat) : Nat :=
  if n < 10 then 48 + n else 55 + n

def queryEscape : List Nat → List Nat
  | [] => []
  | b :: rest =>
    if isUnreservedByte b then b :: queryEscape rest
    else if b = 32 then 43 :: queryEscape rest
    else 37 :: hexUpper (b / 16) :: hexUpper (b % 16) :: queryEscape rest

/-- Mirrors url.Values.Encode on an association list whose keys are
already in the sorted order Encode produces (Encode sorts its keys; for
the login form the keys enter, name, password are already sorted).
Each pair is written as escaped key, equals sign, escaped value, and the
pairs are joined with ampersands. -/
def values_encode_sorted : List (List Nat × List Nat) → List Nat
  | [] => []
  | [(k, v)] => queryEscape k ++ (61 :: queryEscape v)
  | (k, v) :: rest => queryEscape k ++ (61 :: queryEscape v) ++ (38 :: values_encode_sorted rest)

/-- The POST body zabbix_login transmits, main.go lines 62-71: the
username and password are passed through url.QueryEscape first (line 64
and 65) and the resulting values are stored in the url.Values map, whose
Encode escapes them a second time. -/
def login_form_body (uname pass : List Nat) : List Nat :=
  values_encode_sorted
    [(strBytes "enter", strBytes "Sign in"),
     (strBytes "name", queryEscape uname),
     (strBytes "password", queryEscape pass)]

/-! Decoding of an application/x-www-form-urlencoded body, mirroring
url.ParseQuery and url.QueryUnescape, used to state what a receiver
recovers from the transmitted body. -/

def hexDigitVal (b : Nat) : Option Nat :=
  if 48 ≤ b ∧ b ≤ 57 then some (b - 48)
  else if 65 ≤ b ∧ b ≤ 70 then some (b - 55)
  else if 97 ≤ b ∧ b ≤ 102 then some (b - 87)
  else none

def unescapeQuery : List Nat → Option (List Nat)
  | [] => some []
  | 37 :: b1 :: b2 :: rest =>
    match hexDigitVal b1, hexDigitVal b2 with
    | some hi, some lo => (unescapeQuery rest).map (fun t => (16 * hi + lo) :: t)
    | _, _ => none
  | [37] => none
  | [37, _] => none
  | 43 :: rest => (unescapeQuery rest).map (fun t => 32 :: t)
  | b :: rest => (unescapeQuery rest).map (fun t => b :: t)

def splitOnAmp : List Nat → List (List Nat)
  | [] => [[]]
  | b :: rest =>
    if b = 38 then [] :: splitOnAmp rest
    else
      match splitOnAmp rest with
      | [] => [[b]]
      | comp :: comps => (b :: comp) :: comps

def splitEqSign : List Nat → List Nat × List Nat
  | [] => ([], [])
  | b :: rest =>
    if b = 61 then ([], rest)
    else
      let p := splitEqSign rest
      (b :: p.1, p.2)

def parse_form_body (body : List Nat) : Option (List (List Nat × List Nat)) :=
  ((splitOnAmp body).filter (fun comp => !comp.isEmpty)).mapM (fun comp =>
    match unescapeQuery (splitEqSign comp).1, unescapeQuery (splitEqSign comp).2 with
    | some k, some v => some (k, v)
    | _, _ => none)

/-! The CSV reader, mirroring encoding/csv.Reader.Read with the default
configuration, operating on the character list of the input string.
readLine mirrors csv.Reader.readLine: it returns the next line
including its newline, normalizes a carriage return and newline pair at
the end to a bare newline, and for the final line of the input (no
newline before end of input) drops a trailing carriage return. -/

def splitLine : List Char → List Char × List Char
  | [] => ([], [])
  | c :: rest =>
    if c = '\n' then ([c], rest)
    else
      let p := splitLine rest
      (c :: p.1, p.2)

def chompCRLF (raw : List Char) : List Char :=
  match raw.reverse with
  | '\n' :: '\r' :: t => ('\n' :: t).reverse
  | _ => raw

def chompCR (raw : List Char) : List Char :=
  match raw.reverse with
  | '\r' :: t => t.reverse
  | _ => raw

def readLine (s : List Char) : Option (List Char × List Char) :=
  match s with
  | [] => none
  | _ :: _ =>
    let p := splitLine s
    if p.1.getLast? = some '\n' then some (chompCRLF p.1, p.2)
    else some (chompCR p.1, p.2)

def lengthNL (line : List Char) : Nat :=
  if line.getLast? = some '\n' then 1 else 0

def dropNL (line : List Char) : List Char :=
  if line.getLast? = some '\n' then line.dropLast else line

def splitComma : List Char → Option (List Char × List Char)
  | [] => none
  | c :: rest =>
    if c = ',' then some ([], rest)
    else (splitComma rest).map (fun p => (c :: p.1, p.2))

def splitQuote : List Char → Option (List Char × List Char)
  | [] => none
  | c :: rest =>
    if c = '"' then some ([], rest)
    else (splitQuote rest).map (fun p => (c :: p.1, p.2))

inductive ParseMode where
  | fields : ParseMode
  | quoted : List Char → ParseMode

/-- One record of csv.Reader.Read, as the loop parseField of the Go
standard library: in fields mode a field not starting with a quote runs
to the next comma (or to the end of the line, with the final newline
stripped) and must not contain a quote; a field starting with a quote is
parsed in quoted mode, where a doubled quote stands for a literal quote,
a quote followed by a comma or by the end of the line ends the field,
anything else after a closing quote is an error, and an unterminated
quoted field pulls in further lines.  The fuel argument only bounds the
recursion; each recursive call consumes at least one character of the
line or the remaining input, so the initial fuel in parseRecord is never
exhausted.  The result is the field list plus the unconsumed input, or
none for a parse error. -/
def parseLoop : Nat → ParseMode → List Char → List Char → List (List Char) →
    Option (List (List Char) × List Char)
  | 0, _, _, _, _ => none
  | Nat.succ fuel, ParseMode.fields, line, rest, acc =>
    if line.isEmpty || line.head? != some '"' then
      match splitComma line with
      | some (field, after) =>
        if field.contains '"' then none
        else parseLoop fuel ParseMode.fields after rest (acc ++ [field])
      | none =>
        let field := dropNL line
        if field.contains '"' then none
        else some (acc ++ [field], rest)
    else
      parseLoop fuel (ParseMode.quoted []) (line.drop 1) rest acc
  | Nat.succ fuel, ParseMode.quoted fieldAcc, line, rest, acc =>
    match splitQuote line with
    | some (pre, after) =>
      match after with
      | '"' :: tl => parseLoop fuel (ParseMode.quoted (fieldAcc ++ pre ++ ['"'])) tl rest acc
      | ',' :: tl => parseLoop fuel ParseMode.fields tl rest (acc ++ [fieldAcc ++ pre])
      | [] => some (acc ++ [fieldAcc ++ pre], rest)
      | ['\n'] => some (acc ++ [fieldAcc ++ pre], rest)
      | _ => none
    | none =>
      if line.isEmpty then none
      else
        match readLine rest with
        | some (l, r) => parseLoop fuel (ParseMode.quoted (fieldAcc ++ line)) l r acc
        | none => none

def parseRecord (line rest : List Char) : Option (List (List Char) × List Char) :=
  parseLoop (line.length + rest.length + 1) ParseMode.fields line rest []

/-- The successful records the csv.Reader yields before its first error,
which are exactly the records the renderer loops of main.go process:
the loops break on the first error Read returns, and a record returned
together with ErrFieldCount is not processed.  Empty lines are skipped;
the field count of the first record becomes the expected count fpr and
any later record with a different count ends the scan.  Fuel bounds the
recursion; every iteration consumes at least one input character, so
the initial fuel in csvRecords is never exhausted. -/
def csvRecordsAux : Nat → List Char → Option Nat → List (List String)
  | 0, _, _ => []
  | Nat.succ fuel, input, fpr =>
    match readLine input with
    | none => []
    | some (line, rest) =>
      if line.length = lengthNL line then
        csvRecordsAux fuel rest fpr
      else
        match parseRecord line rest with
        | none => []
        | some (fields, remaining) =>
          match fpr with
          | none => fields.map String.mk :: csvRecordsAux fuel remaining (some fields.length)
          | some n =>
            if fields.length = n then fields.map String.mk :: csvRecordsAux fuel remaining fpr
            else []

def csvRecords (csv_content : String) : List (List String) :=
  csvRecordsAux (csv_content.data.length + 1) csv_content.data none

/-! The two renderers, main.go lines 142-171 and 174-203.  Each prints a
fixed header, then one table row per record whose field 3 equals its
target status, then a closing table tag.  The loop bodies read
record[3], record[4], record[5], record[1] and record[6] before testing
the status, so any processed record with fewer than seven fields makes
the Go program panic with an index out of range; the embedding returns
none in that case. -/

def activeTableHeader : String :=
  "<table><tr><td style=\"text-align: center;\">Host</td><td style=\"text-align: center;\">Problem</td><td style=\"text-align: center;\">Time</td><td style=\"text-align: center;\">Duratiom</td></tr>\n"

def resolvedTableHeader : String :=
  "<table><tr><td style=\"text-align: center;\">Host</td><td style=\"text-align: center;\">Problem</td><td style=\"text-align: center;\">Time</td><td style=\"text-align: center;\">Duratiom</td></tr>\n"

def activeRowsLoop : List (List String) → Option String
  | [] => some ""
  | record :: rest =>
    if record.length < 7 then none
    else
      let status := record[3]?.getD ""
      let host := record[4]?.getD ""
      let problem := record[5]?.getD ""
      let time := record[1]?.getD ""
      let duration := record[6]?.getD ""
      if status ≠ "PROBLEM" then activeRowsLoop rest
      else
        (activeRowsLoop rest).map (fun tail =>
          "<tr><td>" ++ host ++ "</td><td>" ++ problem ++ "</td><td>" ++ time
            ++ "</td><td>" ++ duration ++ "</td></tr>\n" ++ tail)

def resolvedRowsLoop : List (List String) → Option String
  | [] => some ""
  | record :: rest =>
    if record.length < 7 then none
    else
      let status := record[3]?.getD ""
      let host := record[4]?.getD ""
      let problem := record[5]?.getD ""
      let time := record[1]?.getD ""
      let duration := record[6]?.getD ""
      if status ≠ "RESOLVED" then resolvedRowsLoop rest
      else
        (resolvedRowsLoop rest).map (fun tail =>
          "<tr><td>" ++ host ++ "</td><td>" ++ problem ++ "</td><td>" ++ time
            ++ "</td><td>" ++ duration ++ "</td></tr>\n" ++ tail)

def extract_active_problems (csv_content : String) : Option String :=
  (activeRowsLoop (csvRecords csv_content)).map (fun rows =>
    activeTableHeader ++ rows ++ "</table>")

def extract_resolved_problems (csv_content : String) : Option String :=
  (resolvedRowsLoop (csvRecords csv_content)).map (fun rows =>
    resolvedTableHeader ++ rows ++ "</table>")

/-! Specification-side vocabulary used to state the claims. -/

def strJoin : List String → String
  | [] => ""
  | s :: rest => s ++ strJoin rest

/-- The table row rendered for a matching record: host (field 4),
problem description (field 5), time (field 1), duration (field 6). -/
def tr_row (record : List String) : String :=
  "<tr><td>" ++ record[4]?.getD "" ++ "</td><td>" ++ record[5]?.getD "" ++ "</td><td>"
    ++ record[1]?.getD "" ++ "</td><td>" ++ record[6]?.getD "" ++ "</td></tr>\n"

/-- The single status-parameterised row loop of which the two Go loops
are instances. -/
def problem_rows_loop (target : String) : List (List String) → Option String
  | [] => some ""
  | record :: rest =>
    if record.length < 7 then none
    else if record[3]?.getD "" ≠ target then problem_rows_loop target rest
    else (problem_rows_loop target rest).map (fun tail => tr_row record ++ tail)

/-- The single status-parameterised renderer described by the
specification in section 4.3: same header, one row per record whose
status field equals the target, same closing tag. -/
def extract_problems_by_status (target : String) (csv_content : String) : Option String :=
  (problem_rows_loop target (csvRecords csv_content)).map (fun rows =>
    activeTableHeader ++ rows ++ "</table>")

/-! Helper lemmas. -/

lemma activeRowsLoop_eq_generic (rs : List (List String)) :
    activeRowsLoop rs = problem_rows_loop "PROBLEM" rs := by
  induction rs with
  | nil => rfl
  | cons r rest ih =>
    by_cases h7 : r.length < 7
    · simp [activeRowsLoop, problem_rows_loop, h7]
    · by_cases hst : r[3]?.getD "" = "PROBLEM"
      · simp [activeRowsLoop, problem_rows_loop, h7, hst, ih, tr_row]
      · simp [activeRowsLoop, problem_rows_loop, h7, hst, ih]

lemma resolvedRowsLoop_eq_generic (rs : List (List String)) :
    resolvedRowsLoop rs = problem_rows_loop "RESOLVED" rs := by
  induction rs with
  | nil => rfl
  | cons r rest ih =>
    by_cases h7 : r.length < 7
    · simp [resolvedRowsLoop, problem_rows_loop, h7]
    · by_cases hst : r[3]?.getD "" = "RESOLVED"
      · simp [resolvedRowsLoop, problem_rows_loop, h7, hst, ih, tr_row]
      · simp [resolvedRowsLoop, problem_rows_loop, h7, hst, ih]

lemma problem_rows_loop_none_iff (target : String) (rs : List (List String)) :
    problem_rows_loop target rs = none ↔ ∃ r ∈ rs, r.length < 7 := by
  induction rs with
  | nil => simp [problem_rows_loop]
  | cons r rest ih =>
    by_cases h7 : r.length < 7
    · simp [problem_rows_loop, h7]
    · by_cases hst : r[3]?.getD "" = target
      · simp [problem_rows_loop, h7, hst, ih, Option.map_eq_none']
      · simp [problem_rows_loop, h7, hst, ih]

lemma problem_rows_loop_some (target : String) (rs : List (List String)) :
    ∀ out, problem_rows_loop target rs = some out →
      out = strJoin ((rs.filter (fun r => r[3]?.getD "" == target)).map tr_row) := by
  induction rs with
  | nil =>
    intro out h
    simp [problem_rows_loop] at h
    simp [← h, strJoin]
  | cons r rest ih =>
    intro out h
    by_cases h7 : r.length < 7
    · simp [problem_rows_loop, h7] at h
    · by_cases hst : r[3]?.getD "" = target
      · rw [problem_rows_loop, if_neg h7, if_neg (by simp [hst])] at h
        obtain ⟨tail, htail, rfl⟩ := Option.map_eq_some'.mp h
        rw [ih tail htail]
        simp [hst, strJoin]
      · rw [problem_rows_loop, if_neg h7, if_pos (by simp [hst])] at h
        rw [ih out h]
        simp [hst]

/-! Claim theorems. -/

/-- C4: whenever the status code of the first, unredirected login
response is not 302, zabbix_login takes the wrong-credentials failure
exit and never returns a session token; a token is only ever returned
when that status code is 302. -/
theorem login_token_only_on_found_status :
    (∀ (st : Nat) (cookies : List HttpCookie), st ≠ 302 →
        login_outcome st cookies = Except.error ExitCodeErrorWrongCredentials)
    ∧ (∀ (st : Nat) (cookies : List HttpCookie) (c : HttpCookie),
        login_outcome st cookies = Except.ok c → st = 302) := by
  constructor
  · intro st cookies hst
    simp [login_outcome, hst]
  · intro st cookies c h
    by_contra hne
    simp [login_outcome, hne] at h

/-- Witness for C4: a 200 response (an error page) yields the
wrong-credentials exit code. -/
theorem login_token_only_on_found_status_witness :
    login_outcome 200 [] = Except.error ExitCodeErrorWrongCredentials :=
  login_token_only_on_found_status.1 200 [] (by decide)

/-- C5: on a 302 response zabbix_login returns the first cookie named
zbx_session; if no cookie has that name it takes the missing-cookie
failure exit, which is a different exit code than wrong credentials. -/
theorem login_scans_for_first_session_cookie :
    (∀ (pre post : List HttpCookie) (c : HttpCookie),
        c.name = "zbx_session" → (∀ d ∈ pre, d.name ≠ "zbx_session") →
        login_outcome 302 (pre ++ c :: post) = Except.ok c)
    ∧ (∀ cookies : List HttpCookie, (∀ d ∈ cookies, d.name ≠ "zbx_session") →
        login_outcome 302 cookies = Except.error ExitCodeErrorMissingCookie)
    ∧ ((ExitCodeErrorMissingCookie == ExitCodeErrorWrongCredentials) = false) := by
  refine ⟨?_, ?_, by decide⟩
  · intro pre post c hc
    induction pre with
    | nil =>
      intro _
      simp [login_outcome, List.find?, hc]
    | cons d ds ih =>
      intro hpre
      have hd : (d.name == "zbx_session") = false := by
        simpa using hpre d (by simp)
      have := ih (fun x hx => hpre x (by simp [hx]))
      simpa [login_outcome, List.find?, hd] using this
  · intro cookies h
    have : cookies.find? (fun k => k.name == "zbx_session") = none := by
      rw [List.find?_eq_none]
      intro x hx
      simpa using h x hx
    simp [login_outcome, this]

/-- Witness for C5: the cookie list contains an unrelated cookie first
and then the session cookie, which is returned. -/
theorem login_scans_for_first_session_cookie_witness :
    login_outcome 302 [⟨"other", "v"⟩, ⟨"zbx_session", "tok"⟩]
      = Except.ok ⟨"zbx_session", "tok"⟩ :=
  login_scans_for_first_session_cookie.1 [⟨"other", "v"⟩] [] ⟨"zbx_session", "tok"⟩
    (by decide) (by decide)

/-- C6: the exit-code mapping is injective over the failure taxonomy:
success is 0 and the eight failure stages all carry distinct codes, all
distinct from 0. -/
theorem exit_codes_injective :
    ExitCodeSuccess = 0 ∧
    ([ExitCodeSuccess, ExitCodeErrorOpeningConfig, ExitCodeErrorDeserializingConfig,
      ExitCodeErrorLoginRequestBuilder, ExitCodeErrorLoginRequest,
      ExitCodeErrorWrongCredentials, ExitCodeErrorExportRequestBuilder,
      ExitCodeErrorMissingCookie, ExitCodeErrorExportRequest] : List Nat).Nodup := by
  decide

/-- C3 evaluation: with username alice and password containing a
reserved character and a space, the transmitted body holds exactly the
three fields enter, name and password, but decoding it returns the
once-escaped password, not the original one: the code escapes the
credentials twice (url.QueryEscape at main.go lines 64-65 and then
url.Values.Encode at line 71). -/
theorem login_body_escapes_credentials_twice :
    login_form_body (strBytes "alice") (strBytes "p@ss word")
      = strBytes "enter=Sign+in&name=alice&password=p%2540ss%2Bword"
    ∧ parse_form_body (login_form_body (strBytes "alice") (strBytes "p@ss word"))
      = some [(strBytes "enter", strBytes "Sign in"),
              (strBytes "name", strBytes "alice"),
              (strBytes "password", strBytes "p%40ss+word")]
    ∧ ((strBytes "p%40ss+word" == strBytes "p@ss word") = false) := by
  refine ⟨by decide, by decide, by decide⟩

/-- C1: whenever a renderer completes (it faults, returning none, only
in the situation settled under the C2 theorems), its output is the
fixed header followed by exactly one table row per parsed record whose
status field (index 3) equals the target status, in the original record
order, and no row for any other record. -/
theorem renderers_emit_exactly_matching_rows (s : String) :
    (∀ out, extract_active_problems s = some out →
      out = activeTableHeader
        ++ strJoin (((csvRecords s).filter (fun r => r[3]?.getD "" == "PROBLEM")).map tr_row)
        ++ "</table>")
    ∧ (∀ out, extract_resolved_problems s = some out →
      out = resolvedTableHeader
        ++ strJoin (((csvRecords s).filter (fun r => r[3]?.getD "" == "RESOLVED")).map tr_row)
        ++ "</table>") := by
  constructor
  · intro out h
    rw [extract_active_problems] at h
    obtain ⟨rows, hrows, rfl⟩ := Option.map_eq_some'.mp h
    rw [activeRowsLoop_eq_generic] at hrows
    rw [problem_rows_loop_some "PROBLEM" (csvRecords s) rows hrows]
  · intro out h
    rw [extract_resolved_problems] at h
    obtain ⟨rows, hrows, rfl⟩ := Option.map_eq_some'.mp h
    rw [resolvedRowsLoop_eq_generic] at hrows
    rw [problem_rows_loop_some "RESOLVED" (csvRecords s) rows hrows]

/-- Witness for C1 at a concrete two-record input with one PROBLEM and
one RESOLVED record. -/
theorem renderers_emit_exactly_matching_rows_witness :
    activeTableHeader ++ "<tr><td>h</td><td>p</td><td>t</td><td>d</td></tr>\n" ++ "</table>"
      = activeTableHeader
        ++ strJoin (((csvRecords ",t,,PROBLEM,h,p,d\n,u,,RESOLVED,h2,p2,d2\n").filter
              (fun r => r[3]?.getD "" == "PROBLEM")).map tr_row)
        ++ "</table>" :=
  (renderers_emit_exactly_matching_rows ",t,,PROBLEM,h,p,d\n,u,,RESOLVED,h2,p2,d2\n").1
    (activeTableHeader ++ "<tr><td>h</td><td>p</td><td>t</td><td>d</td></tr>\n" ++ "</table>")
    (by decide)

/-- C2 counterexample: on the input a,b,c (a single short row) the Go
csv reader succeeds, returning one three-field record, and the loop
body then faults with an index out of range on record[3] instead of
treating the row as a parse error that terminates the scan; the
embedding models the fault as none. -/
theorem short_first_record_faults :
    extract_active_problems "a,b,c\n" = none
    ∧ extract_resolved_problems "a,b,c\n" = none
    ∧ csvRecords "a,b,c\n" = [["a", "b", "c"]] := by
  refine ⟨by decide, by decide, by decide⟩

/-- C2 amended: a row whose field count differs from the record width
fixed by the first record ends the scan as a parse error before its
fields are touched (second conjunct: the mismatched second row and
everything after it are dropped while the first row is still rendered),
and the row scan faults, rather than terminating, exactly when some
record it processes has fewer than seven fields, which the reader
permits only when the first record is that short (first conjunct). -/
theorem scan_stops_on_bad_row_but_faults_when_width_low :
    (∀ s : String,
      (extract_active_problems s = none ↔ ∃ r ∈ csvRecords s, r.length < 7)
      ∧ (extract_resolved_problems s = none ↔ ∃ r ∈ csvRecords s, r.length < 7))
    ∧ csvRecords "a,b,c,PROBLEM,h,p,d\nq,r\ns,t,u,PROBLEM,h2,p2,d2\n"
        = [["a", "b", "c", "PROBLEM", "h", "p", "d"]]
    ∧ extract_active_problems "a,b,c,PROBLEM,h,p,d\nq,r\ns,t,u,PROBLEM,h2,p2,d2\n"
        = some (activeTableHeader
            ++ "<tr><td>h</td><td>p</td><td>b</td><td>d</td></tr>\n" ++ "</table>") := by
  refine ⟨?_, by decide, by decide⟩
  intro s
  constructor
  · rw [extract_active_problems, Option.map_eq_none', activeRowsLoop_eq_generic]
    exact problem_rows_loop_none_iff "PROBLEM" (csvRecords s)
  · rw [extract_resolved_problems, Option.map_eq_none', resolvedRowsLoop_eq_generic]
    exact problem_rows_loop_none_iff "RESOLVED" (csvRecords s)

/-- C7 evaluation: both renderers wrap their output in an opening table
tag, the same input-independent four-cell header row, and a closing
table tag, but the fourth header cell reads Duratiom, not Duration as
the specification states. -/
theorem header_fixed_but_fourth_cell_misspelled :
    resolvedTableHeader = activeTableHeader
    ∧ extract_active_problems "" = some (activeTableHeader ++ "</table>")
    ∧ extract_resolved_problems "" = some (activeTableHeader ++ "</table>")
    ∧ activeTableHeader
        = "<table><tr><td style=\"text-align: center;\">Host</td><td style=\"text-align: center;\">Problem</td><td style=\"text-align: center;\">Time</td><td style=\"text-align: center;\">Duratiom</td></tr>\n"
    ∧ ((activeTableHeader
        == "<table><tr><td style=\"text-align: center;\">Host</td><td style=\"text-align: center;\">Problem</td><td style=\"text-align: center;\">Time</td><td style=\"text-align: center;\">Duration</td></tr>\n") = false) := by
  refine ⟨rfl, by decide, by decide, rfl, by decide⟩

/-- C8: a matching record is rendered as one row of exactly four cells
whose values are, in this order, the host field (index 4), the
description field (index 5), the time field (index 1) and the duration
field (index 6), whatever extra columns follow the seventh. -/
theorem matching_row_renders_reordered_cells
    (c0 t c2 h p d : String) (extra : List String) (rest : List (List String)) :
    activeRowsLoop ((c0 :: t :: c2 :: "PROBLEM" :: h :: p :: d :: extra) :: rest)
      = (activeRowsLoop rest).map (fun tail =>
          "<tr><td>" ++ h ++ "</td><td>" ++ p ++ "</td><td>" ++ t
            ++ "</td><td>" ++ d ++ "</td></tr>\n" ++ tail)
    ∧ resolvedRowsLoop ((c0 :: t :: c2 :: "RESOLVED" :: h :: p :: d :: extra) :: rest)
      = (resolvedRowsLoop rest).map (fun tail =>
          "<tr><td>" ++ h ++ "</td><td>" ++ p ++ "</td><td>" ++ t
            ++ "</td><td>" ++ d ++ "</td></tr>\n" ++ tail) := by
  have hlen : ¬ ((c0 :: t :: c2 :: "PROBLEM" :: h :: p :: d :: extra).length < 7) := by
    simp only [List.length_cons]
    omega
  have hlen2 : ¬ ((c0 :: t :: c2 :: "RESOLVED" :: h :: p :: d :: extra).length < 7) := by
    simp only [List.length_cons]
    omega
  constructor
  · rw [activeRowsLoop, if_neg hlen]
    simp
  · rw [resolvedRowsLoop, if_neg hlen2]
    simp

/-- C9: when the CSV input yields no data records both renderers return
exactly the empty table, the fixed header wrapped with the closing
table tag and no body rows. -/
theorem empty_csv_gives_empty_tables (s : String) (h : csvRecords s = []) :
    extract_active_problems s = some (activeTableHeader ++ "</table>")
    ∧ extract_resolved_problems s = some (resolvedTableHeader ++ "</table>") := by
  constructor
  · rw [extract_active_problems, h]
    decide
  · rw [extract_resolved_problems, h]
    decide

/-- Witness for C9 at the empty input. -/
theorem empty_csv_gives_empty_tables_witness :
    extract_active_problems "" = some (activeTableHeader ++ "</table>")
    ∧ extract_resolved_problems "" = some (resolvedTableHeader ++ "</table>") :=
  empty_csv_gives_empty_tables "" (by decide)

/-- C10: the two renderers are instances of the single
status-parameterised renderer, at targets PROBLEM and RESOLVED. -/
theorem renderers_are_one_parameterised_function (s : String) :
    extract_active_problems s = extract_problems_by_status "PROBLEM" s
    ∧ extract_resolved_problems s = extract_problems_by_status "RESOLVED" s := by
  constructor
  · rw [extract_active_problems, extract_problems_by_status, activeRowsLoop_eq_generic]
  · rw [extract_resolved_problems, extract_problems_by_status, resolvedRowsLoop_eq_generic]
    rfl

end Zrb
